import Mathlib

/-!
Shallow embedding of `src/smart_physics_tutor.py`: the `PhysicsFormulaValidator`
class and the mastery-level update performed by the `/validate` route.

Numbers are modelled as exact rationals (`ℚ`): every numeral the per-formula
regexes accept is an unsigned decimal literal, whose value is an exact decimal
rational, and every comparison the code performs against `0` is exact for such
values and their products.  The regex character class `\d` is modelled as the
ASCII digits `0-9`.  Multiplication is implemented through `Rat.divInt` on
numerators and denominators (definitionally equal in value to `*` on `ℚ`, see
`qmul_eq_mul` below) so that every definition evaluates by kernel reduction.
-/

/-- `formula.replace(' ', '')`: remove every space character (exactly U+0020,
as Python's `str.replace(' ', '')` does — no other whitespace is touched). -/
def stripSpaces (s : String) : String :=
  ⟨s.data.filter (fun c => c ≠ ' ')⟩

/-- Removal of every whitespace character.  Modelled from the spec: used only
to state the specification's whitespace-insensitivity sentence, which speaks
of stripping all whitespace; the source itself strips only `' '`. -/
def stripAllWhitespace (s : String) : String :=
  ⟨s.data.filter (fun c => ¬ c.isWhitespace)⟩

/-- Numeric value of a list of ASCII digits, most significant first. -/
def digitsToNat (ds : List Char) : Nat :=
  ds.foldl (fun n c => 10 * n + (c.toNat - 48)) 0

/-- Multiplication on `ℚ`, computed on numerators and denominators.  Equal to
`·*·` (`qmul_eq_mul`); used inside the embedding because it evaluates by
kernel reduction, which `Rat.mul` (irreducible) does not. -/
def qmul (a b : ℚ) : ℚ :=
  Rat.divInt (a.num * b.num) ((a.den : ℤ) * (b.den : ℤ))

/-- Match the regex fragment `\d+(\.\d+)?` at the head of `cs` and return the
`float(...)` value of the matched text together with the unconsumed suffix.
The fragment is deterministic here: the digit class is disjoint from every
literal that can follow it in the source's patterns, so greedy matching needs
no backtracking.  `float` of an unsigned decimal literal is modelled as its
exact rational value. -/
def parseNum (cs : List Char) : Option (ℚ × List Char) :=
  let intDigits := cs.takeWhile Char.isDigit
  let rest := cs.dropWhile Char.isDigit
  if intDigits.isEmpty then none
  else
    match rest with
    | '.' :: rest2 =>
      let fracDigits := rest2.takeWhile Char.isDigit
      let rest3 := rest2.dropWhile Char.isDigit
      if fracDigits.isEmpty then
        -- the optional group `(\.\d+)?` fails; the match stops before the dot
        some ((digitsToNat intDigits : ℚ), rest)
      else
        some (Rat.divInt (digitsToNat (intDigits ++ fracDigits) : ℤ)
                ((10 : ℤ) ^ fracDigits.length), rest3)
    | _ => some ((digitsToNat intDigits : ℚ), rest)

/-- Match one literal character at the head of the input. -/
def expectChar (c : Char) : List Char → Option (List Char)
  | [] => none
  | c2 :: rest => if c2 = c then some rest else none

/-- The regex `F=(\d+(\.\d+)?)\*(\d+(\.\d+)?)` of `_validate_newton_second_law`,
applied with `re.match` (anchored prefix, trailing characters tolerated);
yields (mass, acceleration). -/
def parseNewton (s : String) : Option (ℚ × ℚ) :=
  match s.data with
  | 'F' :: '=' :: r0 =>
    (parseNum r0).bind fun (mass, r1) =>
    (expectChar '*' r1).bind fun r2 =>
    (parseNum r2).bind fun (acceleration, _) =>
    some (mass, acceleration)
  | _ => none

/-- The regex `KE=0.5\*(\d+(\.\d+)?)\*(\d+(\.\d+)?)\^2` of
`_validate_kinetic_energy`.  The dot in `0.5` is NOT escaped in the source, so
it is the regex metacharacter `.`: any single character except a newline is
accepted between `0` and `5`.  Yields (mass, velocity). -/
def parseKinetic (s : String) : Option (ℚ × ℚ) :=
  match s.data with
  | 'K' :: 'E' :: '=' :: '0' :: dotChar :: '5' :: r0 =>
    if dotChar = '\n' then none
    else
      (expectChar '*' r0).bind fun r1 =>
      (parseNum r1).bind fun (mass, r2) =>
      (expectChar '*' r2).bind fun r3 =>
      (parseNum r3).bind fun (velocity, r4) =>
      (expectChar '^' r4).bind fun r5 =>
      (expectChar '2' r5).bind fun _ =>
      some (mass, velocity)
  | _ => none

/-- The regex `V=(\d+(\.\d+)?)\*(\d+(\.\d+)?)` of `_validate_ohms_law`;
yields (current, resistance). -/
def parseOhms (s : String) : Option (ℚ × ℚ) :=
  match s.data with
  | 'V' :: '=' :: r0 =>
    (parseNum r0).bind fun (current, r1) =>
    (expectChar '*' r1).bind fun r2 =>
    (parseNum r2).bind fun (resistance, _) =>
    some (current, resistance)
  | _ => none

/-- The regex `PV=(\d+(\.\d+)?)\*(\d+(\.\d+)?)\*(\d+(\.\d+)?)` of
`_validate_ideal_gas_law`; yields (n, R, T). -/
def parseIdeal (s : String) : Option (ℚ × ℚ × ℚ) :=
  match s.data with
  | 'P' :: 'V' :: '=' :: r0 =>
    (parseNum r0).bind fun (n, r1) =>
    (expectChar '*' r1).bind fun r2 =>
    (parseNum r2).bind fun (R, r3) =>
    (expectChar '*' r3).bind fun r4 =>
    (parseNum r4).bind fun (T, _) =>
    some (n, R, T)
  | _ => none

/-- What the engine knows of a `hasFormulaPattern` value: the regex text (used
verbatim in the mismatch message) and its anchored `re.match` test on a
whitespace-stripped formula. -/
structure FPattern where
  source : String
  accepts : String → Bool

/-- One entry of `self.validators`, as built by `extract_all_validation_rules`:
`formula_pattern` is `Option`al because `get_property_value` degrades a missing
ontology property to `None`, while `get_property_values` degrades to `[]`. -/
structure RuleRecord where
  formula_pattern : Option FPattern
  validation_rules : List String
  unit_constraints : List String
  value_constraints : List String

/-- The `self.validators` dictionary: formula-type identifier to rule record. -/
def Validators : Type := String → Option RuleRecord

/-- `self.validators.get(name, {}).get('value_constraints', [])` as performed
inside each per-formula validation strategy. -/
def valueConstraintsOf (vs : Validators) (name : String) : List String :=
  match vs name with
  | some info => info.value_constraints
  | none => []

/-- Constraint trigger string for mass (Newton / Kinetic Energy). -/
def massConstraint : String := "Mass (m) must be a positive number greater than 0"

/-- Constraint trigger string for velocity (Kinetic Energy). -/
def velocityConstraint : String := "Velocity (v) must be non-negative"

/-- Constraint trigger string for current (Ohm's Law). -/
def currentConstraint : String := "Current (I) must be non-negative"

/-- Constraint trigger string for resistance (Ohm's Law). -/
def resistanceConstraint : String := "Resistance (R) must be a positive number greater than 0"

/-- Constraint trigger string for moles (Ideal Gas Law). -/
def molesConstraint : String := "Number of Moles (n) must be a positive number greater than 0"

/-- Constraint trigger string for the gas constant (Ideal Gas Law). -/
def gasConstantConstraint : String := "Gas Constant (R) must be a positive number greater than 0"

/-- Constraint trigger string for temperature (Ideal Gas Law). -/
def temperatureConstraint : String :=
  "Temperature (T) must be non-negative (absolute temperature in Kelvin)"

/-- `ValueError` message raised when the mass constraint is violated. -/
def massViolation : String := "Mass must be a positive number greater than 0"

/-- `ValueError` message raised when the velocity constraint is violated. -/
def velocityViolation : String := "Velocity must be non-negative"

/-- `ValueError` message raised when the current constraint is violated. -/
def currentViolation : String := "Current must be non-negative"

/-- `ValueError` message raised when the resistance constraint is violated. -/
def resistanceViolation : String := "Resistance must be a positive number greater than 0"

/-- `ValueError` message raised when the moles constraint is violated. -/
def molesViolation : String := "Number of moles must be a positive number greater than 0"

/-- `ValueError` message raised when the gas-constant constraint is violated. -/
def gasConstantViolation : String := "Gas constant must be a positive number greater than 0"

/-- `ValueError` message raised when the temperature constraint is violated. -/
def temperatureViolation : String :=
  "Temperature must be non-negative (absolute temperature in Kelvin)"

/-- `_validate_newton_second_law` on an already whitespace-stripped formula:
parse, apply the (activation-gated) mass constraint, compute the force and the
parsed-values dictionary.  `ValueError` is modelled by `Except.error`. -/
def validate_newton_second_law (vs : Validators) (formula : String) :
    Except String (ℚ × List (String × ℚ)) :=
  match parseNewton formula with
  | none => .error "Invalid Newton's Second Law formula"
  | some (mass, acceleration) =>
    let value_constraints := valueConstraintsOf vs "NewtonSecondLawValidator"
    if massConstraint ∈ value_constraints ∧ mass ≤ 0 then
      .error massViolation
    else
      .ok (qmul mass acceleration, [("mass", mass), ("acceleration", acceleration)])

/-- `_validate_kinetic_energy`: parse, apply the mass then velocity constraints,
compute `0.5 * mass * (velocity ** 2)` (the Python literal `0.5` is exactly
`1/2` in binary floating point). -/
def validate_kinetic_energy (vs : Validators) (formula : String) :
    Except String (ℚ × List (String × ℚ)) :=
  match parseKinetic formula with
  | none => .error "Invalid Kinetic Energy formula"
  | some (mass, velocity) =>
    let value_constraints := valueConstraintsOf vs "KineticEnergyValidator"
    if massConstraint ∈ value_constraints ∧ mass ≤ 0 then
      .error massViolation
    else if velocityConstraint ∈ value_constraints ∧ velocity < 0 then
      .error velocityViolation
    else
      .ok (qmul (qmul (Rat.divInt 1 2) mass) (qmul velocity velocity),
           [("mass", mass), ("velocity", velocity)])

/-- `_validate_ohms_law`: parse, apply the current then resistance constraints,
compute the voltage. -/
def validate_ohms_law (vs : Validators) (formula : String) :
    Except String (ℚ × List (String × ℚ)) :=
  match parseOhms formula with
  | none => .error "Invalid Ohm's Law formula"
  | some (current, resistance) =>
    let value_constraints := valueConstraintsOf vs "OhmsLawValidator"
    if currentConstraint ∈ value_constraints ∧ current < 0 then
      .error currentViolation
    else if resistanceConstraint ∈ value_constraints ∧ resistance ≤ 0 then
      .error resistanceViolation
    else
      .ok (qmul current resistance, [("current", current), ("resistance", resistance)])

/-- `_validate_ideal_gas_law`: parse, apply the moles, gas-constant and
temperature constraints in order, compute `n * R * T`. -/
def validate_ideal_gas_law (vs : Validators) (formula : String) :
    Except String (ℚ × List (String × ℚ)) :=
  match parseIdeal formula with
  | none => .error "Invalid Ideal Gas Law formula"
  | some (n, R, T) =>
    let value_constraints := valueConstraintsOf vs "IdealGasLawValidator"
    if molesConstraint ∈ value_constraints ∧ n ≤ 0 then
      .error molesViolation
    else if gasConstantConstraint ∈ value_constraints ∧ R ≤ 0 then
      .error gasConstantViolation
    else if temperatureConstraint ∈ value_constraints ∧ T < 0 then
      .error temperatureViolation
    else
      .ok (qmul (qmul n R) T, [("n", n), ("R", R), ("T", T)])

/-- `parse_and_validate_values`: strip spaces, dispatch on the formula type
to the per-type strategy; an unknown type raises
`ValueError("No validation strategy found")`. -/
def parse_and_validate_values (vs : Validators) (formula_type formula : String) :
    Except String (ℚ × List (String × ℚ)) :=
  let formula := stripSpaces formula
  if formula_type = "NewtonSecondLawValidator" then validate_newton_second_law vs formula
  else if formula_type = "KineticEnergyValidator" then validate_kinetic_energy vs formula
  else if formula_type = "OhmsLawValidator" then validate_ohms_law vs formula
  else if formula_type = "IdealGasLawValidator" then validate_ideal_gas_law vs formula
  else .error "No validation strategy found"

/-- Result of a call to `validate_formula`: either a normal `(is_valid,
message)` return, or a Python exception escaping the function uncaught. -/
inductive Outcome where
  | ok (is_valid : Bool) (message : String)
  | raised (exn : String)
deriving DecidableEq

/-- `true` iff the call returned normally (no uncaught exception). -/
def Outcome.normal : Outcome → Bool
  | .ok _ _ => true
  | .raised _ => false

/-- CPython's `f"{x:.2f}"` on a non-negative value, modelled on the exact
rational: round to hundredths (ties to even), then print `<whole>.<2 digits>`.
(The source formats the nearest binary double; on the values reached by the
claims the two agree.  Negative values never reach this function: every
computed result is a product of non-negative parsed operands.) -/
def fmt2 (q : ℚ) : String :=
  let c := q.num.toNat * 100 / q.den
  let r := q.num.toNat * 100 % q.den
  let cents := if 2 * r < q.den then c
    else if q.den < 2 * r then c + 1
    else if c % 2 = 0 then c else c + 1
  let whole := cents / 100
  let frac := cents % 100
  toString whole ++ "." ++ (if frac < 10 then "0" ++ toString frac else toString frac)

/-- The success message built by `validate_formula`:
`"Calculation Successful! Result = {result:.2f}\n"` followed by
`"\n".join(validation_rules + unit_constraints + value_constraints)`. -/
def successMessage (info : RuleRecord) (calculation_result : ℚ) : String :=
  "Calculation Successful! Result = " ++ fmt2 calculation_result ++ "\n" ++
    String.intercalate "\n"
      (info.validation_rules ++ info.unit_constraints ++ info.value_constraints)

/-- `PhysicsFormulaValidator.validate_formula`.  Steps, as in the source:
rule-record lookup (absence is reported, not raised); `re.match` of the
record's pattern against the space-stripped formula — when the pattern
degraded to `None` this `re.match(None, ...)` raises a `TypeError`, and the
`try` block only starts afterwards, so that exception escapes uncaught;
then the parse/constrain/evaluate pipeline, whose `ValueError`s (and any
other exception) are caught and turned into a `(False, message)` return. -/
def validate_formula (vs : Validators) (formula_type formula : String) : Outcome :=
  match vs formula_type with
  | none => .ok false "Unsupported formula type"
  | some validator_info =>
    match validator_info.formula_pattern with
    | none => .raised "TypeError"
    | some pat =>
      if pat.accepts (stripSpaces formula) then
        match parse_and_validate_values vs formula_type formula with
        | .ok (calculation_result, _) =>
          .ok true (successMessage validator_info calculation_result)
        | .error msg => .ok false msg
      else
        .ok false ("Formula must match pattern: " ++ pat.source)

/-- The mastery update of the `/validate` route:
`min(level + 10, 100)` on success, `max(level - 5, 0)` on failure. -/
def masteryStep (mastery_level : ℤ) (is_valid : Bool) : ℤ :=
  if is_valid then min (mastery_level + 10) 100 else max (mastery_level - 5) 0

/-- One `/validate` request `(formula_type, formula)`: run the validator and
update the mastery level from its flag.  An uncaught exception aborts the
route before the update, leaving the level unchanged. -/
def routeStep (vs : Validators) (mastery_level : ℤ) (req : String × String) : ℤ :=
  match validate_formula vs req.1 req.2 with
  | .ok is_valid _ => masteryStep mastery_level is_valid
  | .raised _ => mastery_level

/-- Mastery level after a sequence of `/validate` requests, starting from the
initial `AppState` value `0`. -/
def runRequests (vs : Validators) (reqs : List (String × String)) : ℤ :=
  reqs.foldl (routeStep vs) 0

/-- The shape of every store `extract_all_validation_rules` can build: exactly
one record per each of the four validator identifiers, nothing else.  (If any
of the four is missing from the ontology the constructor raises and the engine
never starts.) -/
def mkValidators (n k o i : RuleRecord) : Validators := fun t =>
  if t = "NewtonSecondLawValidator" then some n
  else if t = "KineticEnergyValidator" then some k
  else if t = "OhmsLawValidator" then some o
  else if t = "IdealGasLawValidator" then some i
  else none

/-- Modelled from the spec: the ontology file `smart_physics_tutor.owl` that
supplies each `hasFormulaPattern` is not among the sources; per the
specification the general pattern for Newton's law accepts the shape
`F=<num>*<num>` as an anchored prefix, which the parser's own regex decides. -/
def newtonFPattern : FPattern :=
  { source := "F=<num>*<num>", accepts := fun s => (parseNewton s).isSome }

/-- Modelled from the spec: the Kinetic Energy general pattern,
`KE=0.5*<num>*<num>^2` as an anchored prefix. -/
def kineticFPattern : FPattern :=
  { source := "KE=0.5*<num>*<num>^2", accepts := fun s => (parseKinetic s).isSome }

/-- Modelled from the spec: the Ohm's Law general pattern, `V=<num>*<num>`
as an anchored prefix. -/
def ohmsFPattern : FPattern :=
  { source := "V=<num>*<num>", accepts := fun s => (parseOhms s).isSome }

/-- Modelled from the spec: the Ideal Gas Law general pattern,
`PV=<num>*<num>*<num>` as an anchored prefix. -/
def idealFPattern : FPattern :=
  { source := "PV=<num>*<num>*<num>", accepts := fun s => (parseIdeal s).isSome }

/-- A concrete Newton rule record with its pattern and mass constraint. -/
def newtonRules : RuleRecord :=
  { formula_pattern := some newtonFPattern, validation_rules := [],
    unit_constraints := [], value_constraints := [massConstraint] }

/-- A concrete Kinetic Energy rule record with mass and velocity constraints. -/
def kineticRules : RuleRecord :=
  { formula_pattern := some kineticFPattern, validation_rules := [],
    unit_constraints := [], value_constraints := [massConstraint, velocityConstraint] }

/-- A concrete Ohm's Law rule record with current and resistance constraints. -/
def ohmsRules : RuleRecord :=
  { formula_pattern := some ohmsFPattern, validation_rules := [],
    unit_constraints := [], value_constraints := [currentConstraint, resistanceConstraint] }

/-- A concrete Ideal Gas Law rule record with moles, gas-constant and
temperature constraints. -/
def idealRules : RuleRecord :=
  { formula_pattern := some idealFPattern, validation_rules := [],
    unit_constraints := [],
    value_constraints := [molesConstraint, gasConstantConstraint, temperatureConstraint] }

/-- A loader-producible store in which every constraint is active. -/
def fullStore : Validators := mkValidators newtonRules kineticRules ohmsRules idealRules

/-- The Newton record after `hasFormulaPattern` was missing from the ontology:
`get_property_value` degraded it to `None` (with a logged warning). -/
def degradedNewtonRules : RuleRecord :=
  { formula_pattern := none, validation_rules := [],
    unit_constraints := [], value_constraints := [massConstraint] }

/-- A loader-producible store whose Newton record lost its pattern. -/
def degradedStore : Validators :=
  mkValidators degradedNewtonRules kineticRules ohmsRules idealRules

theorem qmul_eq_mul (a b : ℚ) : qmul a b = a * b := by
  rw [qmul]
  conv_rhs => rw [← Rat.num_divInt_den a, ← Rat.num_divInt_den b]
  rw [Rat.divInt_mul_divInt']

theorem parseNum_nonneg {cs : List Char} {q : ℚ} {r : List Char}
    (h : parseNum cs = some (q, r)) : 0 ≤ q := by
  simp only [parseNum] at h
  split at h
  · exact absurd h (by simp)
  · split at h
    · split at h
      · obtain ⟨rfl, -⟩ := Prod.mk.injEq .. ▸ Option.some.inj h
        positivity
      · obtain ⟨rfl, -⟩ := Prod.mk.injEq .. ▸ Option.some.inj h
        rw [Rat.divInt_eq_div]
        positivity
    · obtain ⟨rfl, -⟩ := Prod.mk.injEq .. ▸ Option.some.inj h
      positivity

theorem parseNewton_nonneg {s : String} {m a : ℚ} (h : parseNewton s = some (m, a)) :
    0 ≤ m ∧ 0 ≤ a := by
  unfold parseNewton at h
  split at h
  · simp only [Option.bind_eq_some, Prod.exists, Option.some.injEq, Prod.mk.injEq] at h
    obtain ⟨m0, r1, hm0, r2, hr2, a0, r3, ha0, rfl, rfl⟩ := h
    exact ⟨parseNum_nonneg hm0, parseNum_nonneg ha0⟩
  · exact absurd h (by simp)

theorem parseKinetic_nonneg {s : String} {m v : ℚ} (h : parseKinetic s = some (m, v)) :
    0 ≤ m ∧ 0 ≤ v := by
  unfold parseKinetic at h
  split at h
  · split at h
    · exact absurd h (by simp)
    · simp only [Option.bind_eq_some, Prod.exists, Option.some.injEq, Prod.mk.injEq] at h
      obtain ⟨r1, hr1, m0, r2, hm0, r3, hr3, v0, r4, hv0, r5, hr5, r6, hr6, rfl, rfl⟩ := h
      exact ⟨parseNum_nonneg hm0, parseNum_nonneg hv0⟩
  · exact absurd h (by simp)

theorem parseOhms_nonneg {s : String} {i r : ℚ} (h : parseOhms s = some (i, r)) :
    0 ≤ i ∧ 0 ≤ r := by
  unfold parseOhms at h
  split at h
  · simp only [Option.bind_eq_some, Prod.exists, Option.some.injEq, Prod.mk.injEq] at h
    obtain ⟨i0, r1, hi0, r2, hr2, q0, r3, hq0, rfl, rfl⟩ := h
    exact ⟨parseNum_nonneg hi0, parseNum_nonneg hq0⟩
  · exact absurd h (by simp)

theorem parseIdeal_nonneg {s : String} {n R T : ℚ} (h : parseIdeal s = some (n, R, T)) :
    0 ≤ n ∧ 0 ≤ R ∧ 0 ≤ T := by
  unfold parseIdeal at h
  split at h
  · simp only [Option.bind_eq_some, Prod.exists, Option.some.injEq, Prod.mk.injEq] at h
    obtain ⟨n0, r1, hn0, r2, hr2, R0, r3, hR0, r4, hr4, T0, r5, hT0, rfl, rfl, rfl⟩ := h
    exact ⟨parseNum_nonneg hn0, parseNum_nonneg hR0, parseNum_nonneg hT0⟩
  · exact absurd h (by simp)

theorem stripSpaces_idem (s : String) : stripSpaces (stripSpaces s) = stripSpaces s := by
  simp only [stripSpaces, List.filter_filter]
  congr 1
  apply List.filter_congr
  intro c _
  simp [Bool.and_self]

theorem valueConstraintsOf_eq {vs : Validators} {name : String} {info : RuleRecord}
    (hvs : vs name = some info) :
    valueConstraintsOf vs name = info.value_constraints := by
  unfold valueConstraintsOf
  rw [hvs]

theorem validate_newton_second_law_ok {vs : Validators} {s : String} {m a : ℚ}
    (hparse : parseNewton s = some (m, a))
    (hmass : massConstraint ∈ valueConstraintsOf vs "NewtonSecondLawValidator" → 0 < m) :
    validate_newton_second_law vs s = .ok (qmul m a, [("mass", m), ("acceleration", a)]) := by
  simp only [validate_newton_second_law, hparse]
  rw [if_neg]
  rintro ⟨hmem, hle⟩
  exact absurd hle (not_le.mpr (hmass hmem))

theorem validate_newton_second_law_massfail {vs : Validators} {s : String} {m a : ℚ}
    (hparse : parseNewton s = some (m, a))
    (hmem : massConstraint ∈ valueConstraintsOf vs "NewtonSecondLawValidator")
    (hm : m ≤ 0) :
    validate_newton_second_law vs s = .error massViolation := by
  simp only [validate_newton_second_law, hparse]
  rw [if_pos ⟨hmem, hm⟩]

theorem validate_kinetic_energy_ok {vs : Validators} {s : String} {m v : ℚ}
    (hparse : parseKinetic s = some (m, v))
    (hmass : massConstraint ∈ valueConstraintsOf vs "KineticEnergyValidator" → 0 < m) :
    validate_kinetic_energy vs s =
      .ok (qmul (qmul (Rat.divInt 1 2) m) (qmul v v), [("mass", m), ("velocity", v)]) := by
  simp only [validate_kinetic_energy, hparse]
  rw [if_neg, if_neg]
  · rintro ⟨-, hlt⟩
    exact absurd hlt (not_lt.mpr (parseKinetic_nonneg hparse).2)
  · rintro ⟨hmem, hle⟩
    exact absurd hle (not_le.mpr (hmass hmem))

theorem validate_kinetic_energy_massfail {vs : Validators} {s : String} {m v : ℚ}
    (hparse : parseKinetic s = some (m, v))
    (hmem : massConstraint ∈ valueConstraintsOf vs "KineticEnergyValidator")
    (hm : m ≤ 0) :
    validate_kinetic_energy vs s = .error massViolation := by
  simp only [validate_kinetic_energy, hparse]
  rw [if_pos ⟨hmem, hm⟩]

theorem validate_kinetic_energy_ne_velocity (vs : Validators) (s : String) :
    validate_kinetic_energy vs s ≠ .error velocityViolation := by
  intro h
  rcases hk : parseKinetic s with - | ⟨m, v⟩
  · simp only [validate_kinetic_energy, hk] at h
    exact absurd (Except.error.inj h) (by decide)
  · by_cases hm : massConstraint ∈ valueConstraintsOf vs "KineticEnergyValidator" ∧ m ≤ 0
    · rw [validate_kinetic_energy_massfail hk hm.1 hm.2] at h
      exact absurd (Except.error.inj h) (by decide)
    · rw [validate_kinetic_energy_ok hk
        (fun hmem => not_le.mp (fun hle => hm ⟨hmem, hle⟩))] at h
      exact absurd h (by simp)

theorem validate_ohms_law_ok {vs : Validators} {s : String} {i r : ℚ}
    (hparse : parseOhms s = some (i, r))
    (hres : resistanceConstraint ∈ valueConstraintsOf vs "OhmsLawValidator" → 0 < r) :
    validate_ohms_law vs s = .ok (qmul i r, [("current", i), ("resistance", r)]) := by
  simp only [validate_ohms_law, hparse]
  rw [if_neg, if_neg]
  · rintro ⟨hmem, hle⟩
    exact absurd hle (not_le.mpr (hres hmem))
  · rintro ⟨-, hlt⟩
    exact absurd hlt (not_lt.mpr (parseOhms_nonneg hparse).1)

theorem validate_ohms_law_resfail {vs : Validators} {s : String} {i r : ℚ}
    (hparse : parseOhms s = some (i, r))
    (hmem : resistanceConstraint ∈ valueConstraintsOf vs "OhmsLawValidator")
    (hr : r ≤ 0) :
    validate_ohms_law vs s = .error resistanceViolation := by
  simp only [validate_ohms_law, hparse]
  rw [if_neg, if_pos ⟨hmem, hr⟩]
  rintro ⟨-, hlt⟩
  exact absurd hlt (not_lt.mpr (parseOhms_nonneg hparse).1)

theorem validate_ohms_law_ne_current (vs : Validators) (s : String) :
    validate_ohms_law vs s ≠ .error currentViolation := by
  intro h
  rcases hk : parseOhms s with - | ⟨i, r⟩
  · simp only [validate_ohms_law, hk] at h
    exact absurd (Except.error.inj h) (by decide)
  · by_cases hr : resistanceConstraint ∈ valueConstraintsOf vs "OhmsLawValidator" ∧ r ≤ 0
    · rw [validate_ohms_law_resfail hk hr.1 hr.2] at h
      exact absurd (Except.error.inj h) (by decide)
    · rw [validate_ohms_law_ok hk
        (fun hmem => not_le.mp (fun hle => hr ⟨hmem, hle⟩))] at h
      exact absurd h (by simp)

theorem validate_ideal_gas_law_ok {vs : Validators} {s : String} {n R T : ℚ}
    (hparse : parseIdeal s = some (n, R, T))
    (hmol : molesConstraint ∈ valueConstraintsOf vs "IdealGasLawValidator" → 0 < n)
    (hgas : gasConstantConstraint ∈ valueConstraintsOf vs "IdealGasLawValidator" → 0 < R) :
    validate_ideal_gas_law vs s =
      .ok (qmul (qmul n R) T, [("n", n), ("R", R), ("T", T)]) := by
  simp only [validate_ideal_gas_law, hparse]
  rw [if_neg, if_neg, if_neg]
  · rintro ⟨-, hlt⟩
    exact absurd hlt (not_lt.mpr (parseIdeal_nonneg hparse).2.2)
  · rintro ⟨hmem, hle⟩
    exact absurd hle (not_le.mpr (hgas hmem))
  · rintro ⟨hmem, hle⟩
    exact absurd hle (not_le.mpr (hmol hmem))

theorem validate_ideal_gas_law_molfail {vs : Validators} {s : String} {n R T : ℚ}
    (hparse : parseIdeal s = some (n, R, T))
    (hmem : molesConstraint ∈ valueConstraintsOf vs "IdealGasLawValidator")
    (hn : n ≤ 0) :
    validate_ideal_gas_law vs s = .error molesViolation := by
  simp only [validate_ideal_gas_law, hparse]
  rw [if_pos ⟨hmem, hn⟩]

theorem validate_ideal_gas_law_gasfail {vs : Validators} {s : String} {n R T : ℚ}
    (hparse : parseIdeal s = some (n, R, T))
    (hmol : ¬ (molesConstraint ∈ valueConstraintsOf vs "IdealGasLawValidator" ∧ n ≤ 0))
    (hmem : gasConstantConstraint ∈ valueConstraintsOf vs "IdealGasLawValidator")
    (hR : R ≤ 0) :
    validate_ideal_gas_law vs s = .error gasConstantViolation := by
  simp only [validate_ideal_gas_law, hparse]
  rw [if_neg hmol, if_pos ⟨hmem, hR⟩]

theorem validate_ideal_gas_law_ne_temperature (vs : Validators) (s : String) :
    validate_ideal_gas_law vs s ≠ .error temperatureViolation := by
  intro h
  rcases hk : parseIdeal s with - | ⟨n, R, T⟩
  · simp only [validate_ideal_gas_law, hk] at h
    exact absurd (Except.error.inj h) (by decide)
  · by_cases hn : molesConstraint ∈ valueConstraintsOf vs "IdealGasLawValidator" ∧ n ≤ 0
    · rw [validate_ideal_gas_law_molfail hk hn.1 hn.2] at h
      exact absurd (Except.error.inj h) (by decide)
    · by_cases hR : gasConstantConstraint ∈ valueConstraintsOf vs "IdealGasLawValidator" ∧ R ≤ 0
      · rw [validate_ideal_gas_law_gasfail hk hn hR.1 hR.2] at h
        exact absurd (Except.error.inj h) (by decide)
      · rw [validate_ideal_gas_law_ok hk
          (fun hmem => not_le.mp (fun hle => hn ⟨hmem, hle⟩))
          (fun hmem => not_le.mp (fun hle => hR ⟨hmem, hle⟩))] at h
        exact absurd h (by simp)

theorem validate_formula_dispatch {vs : Validators} {t : String} {info : RuleRecord}
    {p : FPattern} (s : String) (hvs : vs t = some info)
    (hp : info.formula_pattern = some p) (hacc : p.accepts (stripSpaces s) = true) :
    validate_formula vs t s =
      match parse_and_validate_values vs t s with
      | .ok (v, _) => .ok true (successMessage info v)
      | .error msg => .ok false msg := by
  unfold validate_formula
  rw [hvs]
  simp only [hp, hacc, if_true]

theorem validate_formula_mismatch {vs : Validators} {t : String} {info : RuleRecord}
    {p : FPattern} (s : String) (hvs : vs t = some info)
    (hp : info.formula_pattern = some p) (hacc : p.accepts (stripSpaces s) = false) :
    validate_formula vs t s = .ok false ("Formula must match pattern: " ++ p.source) := by
  unfold validate_formula
  rw [hvs]
  simp only [hp, hacc, Bool.false_eq_true, if_false]

theorem parse_and_validate_values_newton (vs : Validators) (s : String) :
    parse_and_validate_values vs "NewtonSecondLawValidator" s =
      validate_newton_second_law vs (stripSpaces s) := rfl

theorem parse_and_validate_values_kinetic (vs : Validators) (s : String) :
    parse_and_validate_values vs "KineticEnergyValidator" s =
      validate_kinetic_energy vs (stripSpaces s) := rfl

theorem parse_and_validate_values_ohms (vs : Validators) (s : String) :
    parse_and_validate_values vs "OhmsLawValidator" s =
      validate_ohms_law vs (stripSpaces s) := rfl

theorem parse_and_validate_values_ideal (vs : Validators) (s : String) :
    parse_and_validate_values vs "IdealGasLawValidator" s =
      validate_ideal_gas_law vs (stripSpaces s) := rfl

theorem validate_formula_newton_ok {vs : Validators} {info : RuleRecord} {p : FPattern}
    (s : String) {m a : ℚ}
    (hvs : vs "NewtonSecondLawValidator" = some info)
    (hp : info.formula_pattern = some p)
    (hacc : p.accepts (stripSpaces s) = true)
    (hparse : parseNewton (stripSpaces s) = some (m, a))
    (hmass : massConstraint ∈ info.value_constraints → 0 < m) :
    validate_formula vs "NewtonSecondLawValidator" s =
      .ok true (successMessage info (m * a)) := by
  rw [validate_formula_dispatch s hvs hp hacc, parse_and_validate_values_newton,
    validate_newton_second_law_ok hparse (valueConstraintsOf_eq hvs ▸ hmass)]
  rw [qmul_eq_mul]

theorem validate_formula_kinetic_ok {vs : Validators} {info : RuleRecord} {p : FPattern}
    (s : String) {m v : ℚ}
    (hvs : vs "KineticEnergyValidator" = some info)
    (hp : info.formula_pattern = some p)
    (hacc : p.accepts (stripSpaces s) = true)
    (hparse : parseKinetic (stripSpaces s) = some (m, v))
    (hmass : massConstraint ∈ info.value_constraints → 0 < m) :
    validate_formula vs "KineticEnergyValidator" s =
      .ok true (successMessage info ((1 / 2 : ℚ) * m * v ^ 2)) := by
  rw [validate_formula_dispatch s hvs hp hacc, parse_and_validate_values_kinetic,
    validate_kinetic_energy_ok hparse (valueConstraintsOf_eq hvs ▸ hmass)]
  have hval : qmul (qmul (Rat.divInt 1 2) m) (qmul v v) = (1 / 2 : ℚ) * m * v ^ 2 := by
    rw [qmul_eq_mul, qmul_eq_mul, qmul_eq_mul, Rat.divInt_eq_div]
    push_cast
    ring
  rw [hval]

theorem validate_formula_ohms_ok {vs : Validators} {info : RuleRecord} {p : FPattern}
    (s : String) {i r : ℚ}
    (hvs : vs "OhmsLawValidator" = some info)
    (hp : info.formula_pattern = some p)
    (hacc : p.accepts (stripSpaces s) = true)
    (hparse : parseOhms (stripSpaces s) = some (i, r))
    (hres : resistanceConstraint ∈ info.value_constraints → 0 < r) :
    validate_formula vs "OhmsLawValidator" s =
      .ok true (successMessage info (i * r)) := by
  rw [validate_formula_dispatch s hvs hp hacc, parse_and_validate_values_ohms,
    validate_ohms_law_ok hparse (valueConstraintsOf_eq hvs ▸ hres)]
  rw [qmul_eq_mul]

theorem validate_formula_ideal_ok {vs : Validators} {info : RuleRecord} {p : FPattern}
    (s : String) {n R T : ℚ}
    (hvs : vs "IdealGasLawValidator" = some info)
    (hp : info.formula_pattern = some p)
    (hacc : p.accepts (stripSpaces s) = true)
    (hparse : parseIdeal (stripSpaces s) = some (n, R, T))
    (hmol : molesConstraint ∈ info.value_constraints → 0 < n)
    (hgas : gasConstantConstraint ∈ info.value_constraints → 0 < R) :
    validate_formula vs "IdealGasLawValidator" s =
      .ok true (successMessage info (n * R * T)) := by
  rw [validate_formula_dispatch s hvs hp hacc, parse_and_validate_values_ideal,
    validate_ideal_gas_law_ok hparse (valueConstraintsOf_eq hvs ▸ hmol)
      (valueConstraintsOf_eq hvs ▸ hgas)]
  rw [qmul_eq_mul, qmul_eq_mul]

theorem validate_formula_kinetic_full (s : String) :
    validate_formula fullStore "KineticEnergyValidator" s =
      if kineticFPattern.accepts (stripSpaces s) then
        match validate_kinetic_energy fullStore (stripSpaces s) with
        | .ok (v, _) => .ok true (successMessage kineticRules v)
        | .error msg => .ok false msg
      else .ok false ("Formula must match pattern: " ++ kineticFPattern.source) := rfl

theorem validate_formula_ohms_full (s : String) :
    validate_formula fullStore "OhmsLawValidator" s =
      if ohmsFPattern.accepts (stripSpaces s) then
        match validate_ohms_law fullStore (stripSpaces s) with
        | .ok (v, _) => .ok true (successMessage ohmsRules v)
        | .error msg => .ok false msg
      else .ok false ("Formula must match pattern: " ++ ohmsFPattern.source) := rfl

theorem validate_formula_ideal_full (s : String) :
    validate_formula fullStore "IdealGasLawValidator" s =
      if idealFPattern.accepts (stripSpaces s) then
        match validate_ideal_gas_law fullStore (stripSpaces s) with
        | .ok (v, _) => .ok true (successMessage idealRules v)
        | .error msg => .ok false msg
      else .ok false ("Formula must match pattern: " ++ idealFPattern.source) := rfl

theorem fullStore_no_velocity_msg (s : String) :
    validate_formula fullStore "KineticEnergyValidator" s ≠ .ok false velocityViolation := by
  rw [validate_formula_kinetic_full]
  split
  · rcases hk : validate_kinetic_energy fullStore (stripSpaces s) with msg | ⟨v, ops⟩
    · simp only [hk, ne_eq, Outcome.ok.injEq]
      rintro ⟨-, rfl⟩
      exact validate_kinetic_energy_ne_velocity fullStore (stripSpaces s) hk
    · simp [hk]
  · decide

theorem fullStore_no_current_msg (s : String) :
    validate_formula fullStore "OhmsLawValidator" s ≠ .ok false currentViolation := by
  rw [validate_formula_ohms_full]
  split
  · rcases hk : validate_ohms_law fullStore (stripSpaces s) with msg | ⟨v, ops⟩
    · simp only [hk, ne_eq, Outcome.ok.injEq]
      rintro ⟨-, rfl⟩
      exact validate_ohms_law_ne_current fullStore (stripSpaces s) hk
    · simp [hk]
  · decide

theorem fullStore_no_temperature_msg (s : String) :
    validate_formula fullStore "IdealGasLawValidator" s ≠ .ok false temperatureViolation := by
  rw [validate_formula_ideal_full]
  split
  · rcases hk : validate_ideal_gas_law fullStore (stripSpaces s) with msg | ⟨v, ops⟩
    · simp only [hk, ne_eq, Outcome.ok.injEq]
      rintro ⟨-, rfl⟩
      exact validate_ideal_gas_law_ne_temperature fullStore (stripSpaces s) hk
    · simp [hk]
  · decide

theorem routeStep_bounds (vs : Validators) (m : ℤ) (req : String × String)
    (h0 : 0 ≤ m) (h1 : m ≤ 100) :
    0 ≤ routeStep vs m req ∧ routeStep vs m req ≤ 100 := by
  unfold routeStep
  cases validate_formula vs req.1 req.2 with
  | ok b msg =>
    unfold masteryStep
    split <;> constructor <;> omega
  | raised e => exact ⟨h0, h1⟩

theorem foldl_mastery_bounds (vs : Validators) :
    ∀ (reqs : List (String × String)) (m : ℤ), 0 ≤ m → m ≤ 100 →
      0 ≤ reqs.foldl (routeStep vs) m ∧ reqs.foldl (routeStep vs) m ≤ 100
  | [], _, h0, h1 => ⟨h0, h1⟩
  | req :: rest, m, h0, h1 => by
    rw [List.foldl_cons]
    obtain ⟨a, b⟩ := routeStep_bounds vs m req h0 h1
    exact foldl_mastery_bounds vs rest _ a b

/-- C1 (amended): for each of the four formula types, any formula that passes
the stored pattern, the per-type parser and every active value constraint
yields `is_valid = true` with the computed value equal to the documented
formula (`m*a`, `0.5*m*v^2`, `i*r`, `n*R*T`) and the message
"Calculation Successful! Result = <2-decimal value>\n" followed by the rule
record's validation_rules, unit_constraints and value_constraints joined by
newlines, in that order; concretely F=2*3 gives 6.00, KE=0.5*2*3^2 gives
9.00, V=2*3 gives 6.00 and PV=1*8.314*300 gives 2494.20.  Amendment: the
computed value is not returned separately beside the flag and message — the
return is the pair (flag, message), the value appearing only via its
two-decimal formatting inside the message. -/
theorem c1_success_outcome (vs : Validators) (s : String) :
    (∀ info p m a,
      vs "NewtonSecondLawValidator" = some info →
      info.formula_pattern = some p →
      p.accepts (stripSpaces s) = true →
      parseNewton (stripSpaces s) = some (m, a) →
      (massConstraint ∈ info.value_constraints → 0 < m) →
      validate_formula vs "NewtonSecondLawValidator" s =
        .ok true (successMessage info (m * a)))
  ∧ (∀ info p m v,
      vs "KineticEnergyValidator" = some info →
      info.formula_pattern = some p →
      p.accepts (stripSpaces s) = true →
      parseKinetic (stripSpaces s) = some (m, v) →
      (massConstraint ∈ info.value_constraints → 0 < m) →
      (velocityConstraint ∈ info.value_constraints → 0 ≤ v) →
      validate_formula vs "KineticEnergyValidator" s =
        .ok true (successMessage info ((1 / 2 : ℚ) * m * v ^ 2)))
  ∧ (∀ info p i r,
      vs "OhmsLawValidator" = some info →
      info.formula_pattern = some p →
      p.accepts (stripSpaces s) = true →
      parseOhms (stripSpaces s) = some (i, r) →
      (currentConstraint ∈ info.value_constraints → 0 ≤ i) →
      (resistanceConstraint ∈ info.value_constraints → 0 < r) →
      validate_formula vs "OhmsLawValidator" s =
        .ok true (successMessage info (i * r)))
  ∧ (∀ info p n R T,
      vs "IdealGasLawValidator" = some info →
      info.formula_pattern = some p →
      p.accepts (stripSpaces s) = true →
      parseIdeal (stripSpaces s) = some (n, R, T) →
      (molesConstraint ∈ info.value_constraints → 0 < n) →
      (gasConstantConstraint ∈ info.value_constraints → 0 < R) →
      (temperatureConstraint ∈ info.value_constraints → 0 ≤ T) →
      validate_formula vs "IdealGasLawValidator" s =
        .ok true (successMessage info (n * R * T)))
  ∧ validate_formula fullStore "NewtonSecondLawValidator" "F=2*3" =
      .ok true ("Calculation Successful! Result = 6.00\n" ++ massConstraint)
  ∧ validate_formula fullStore "KineticEnergyValidator" "KE=0.5*2*3^2" =
      .ok true ("Calculation Successful! Result = 9.00\n" ++
        massConstraint ++ "\n" ++ velocityConstraint)
  ∧ validate_formula fullStore "OhmsLawValidator" "V=2*3" =
      .ok true ("Calculation Successful! Result = 6.00\n" ++
        currentConstraint ++ "\n" ++ resistanceConstraint)
  ∧ validate_formula fullStore "IdealGasLawValidator" "PV=1*8.314*300" =
      .ok true ("Calculation Successful! Result = 2494.20\n" ++
        molesConstraint ++ "\n" ++ gasConstantConstraint ++ "\n" ++
        temperatureConstraint) := by
  refine ⟨?_, ?_, ?_, ?_, by decide, by decide, by decide, by decide⟩
  · intro info p m a hvs hp hacc hparse hmass
    exact validate_formula_newton_ok s hvs hp hacc hparse hmass
  · intro info p m v hvs hp hacc hparse hmass hvel
    exact validate_formula_kinetic_ok s hvs hp hacc hparse hmass
  · intro info p i r hvs hp hacc hparse hcur hres
    exact validate_formula_ohms_ok s hvs hp hacc hparse hres
  · intro info p n R T hvs hp hacc hparse hmol hgas htemp
    exact validate_formula_ideal_ok s hvs hp hacc hparse hmol hgas

/-- C1 witness: the Ideal Gas Law success case applied at the concrete input
`PV=1*8.314*300`, every hypothesis discharged there. -/
theorem c1_success_outcome_witness :
    validate_formula fullStore "IdealGasLawValidator" "PV=1*8.314*300" =
      .ok true (successMessage idealRules
        ((1 : ℚ) * Rat.divInt 8314 1000 * 300)) :=
  (c1_success_outcome fullStore "PV=1*8.314*300").2.2.2.1 idealRules idealFPattern
    1 (Rat.divInt 8314 1000) 300 rfl rfl (by decide) (by decide)
    (fun _ => by decide) (fun _ => by decide) (fun _ => by decide)

/-- C1 counterexample: the computed value is not part of the return.  The
inputs `F=2*3` and `F=2*3.0005` produce different computed values inside
`parse_and_validate_values` (6 versus 6.001), yet `validate_formula` returns
the very same outcome for both (the two values format alike to two decimals),
so the return cannot contain the computed value — only the flag and the
message are returned. -/
theorem c1_value_not_returned :
    validate_formula fullStore "NewtonSecondLawValidator" "F=2*3" =
      validate_formula fullStore "NewtonSecondLawValidator" "F=2*3.0005"
  ∧ parse_and_validate_values fullStore "NewtonSecondLawValidator" "F=2*3" =
      .ok (6, [("mass", 2), ("acceleration", 3)])
  ∧ parse_and_validate_values fullStore "NewtonSecondLawValidator" "F=2*3.0005" =
      .ok (Rat.divInt 6001 1000, [("mass", 2), ("acceleration", Rat.divInt 30005 10000)])
  ∧ (6 : ℚ) ≠ Rat.divInt 6001 1000 :=
  ⟨by decide, rfl, rfl, by decide⟩

/-- C2 (amended): for every store whose looked-up record still carries a
formula pattern, and for every formula type and formula string,
`validate_formula` returns normally with a `(flag, message)` pair — every
failure inside the parse/constrain/evaluate pipeline is caught locally.
Amendment: a rule record whose `formula_pattern` degraded to an absent value
(the loader's missing-property fallback) makes `re.match(None, ...)` raise an
uncaught TypeError before the `try` block starts, so such stores are
excluded. -/
theorem c2_no_uncaught_exception (vs : Validators) (t s : String)
    (h : ∀ info, vs t = some info → info.formula_pattern.isSome = true) :
    (validate_formula vs t s).normal = true := by
  cases hvs : vs t with
  | none =>
    unfold validate_formula
    rw [hvs]
    rfl
  | some info =>
    cases hp : info.formula_pattern with
    | none => exact absurd (hp ▸ h info hvs) (by simp)
    | some p =>
      unfold validate_formula
      rw [hvs]
      simp only [hp]
      split
      · rcases parse_and_validate_values vs t s with msg | ⟨v, ops⟩ <;> rfl
      · rfl

/-- C2 witness: a fully-populated store and an arbitrary malformed formula;
the call returns normally. -/
theorem c2_no_uncaught_exception_witness :
    (validate_formula fullStore "NewtonSecondLawValidator" "gibberish").normal = true :=
  c2_no_uncaught_exception fullStore "NewtonSecondLawValidator" "gibberish"
    (fun info h => by
      rw [show fullStore "NewtonSecondLawValidator" = some newtonRules from rfl] at h
      cases Option.some.inj h
      rfl)

/-- C2 counterexample: a loader-producible store whose Newton record lost its
`hasFormulaPattern` (degraded to an absent value, as the spec itself allows)
makes `validate_formula` raise an uncaught TypeError at the `re.match` step,
which lies before the `try` block. -/
theorem c2_degraded_pattern_raises :
    validate_formula degradedStore "NewtonSecondLawValidator" "F=2*3" = .raised "TypeError"
  ∧ (validate_formula degradedStore "NewtonSecondLawValidator" "F=2*3").normal = false :=
  ⟨by decide, by decide⟩

/-- C3 (amended): with every constraint active, the non-positive-resistance,
non-positive-moles and non-positive-gas-constant violations are each reachable
by a concrete input, while the strictly-negative checks (velocity, current,
temperature) are unreachable: the parsers admit no sign, so no input string
whatsoever can produce their violation messages. -/
theorem c3_constraint_reachability :
    validate_formula fullStore "OhmsLawValidator" "V=1*0" = .ok false resistanceViolation
  ∧ validate_formula fullStore "IdealGasLawValidator" "PV=0*1*1" = .ok false molesViolation
  ∧ validate_formula fullStore "IdealGasLawValidator" "PV=1*0*1" =
      .ok false gasConstantViolation
  ∧ (¬ ∃ s : String, validate_formula fullStore "KineticEnergyValidator" s =
      .ok false velocityViolation)
  ∧ (¬ ∃ s : String, validate_formula fullStore "OhmsLawValidator" s =
      .ok false currentViolation)
  ∧ (¬ ∃ s : String, validate_formula fullStore "IdealGasLawValidator" s =
      .ok false temperatureViolation) :=
  ⟨by decide, by decide, by decide,
   fun ⟨s, h⟩ => fullStore_no_velocity_msg s h,
   fun ⟨s, h⟩ => fullStore_no_current_msg s h,
   fun ⟨s, h⟩ => fullStore_no_temperature_msg s h⟩

/-- C3 counterexample: even with the velocity constraint active in the store,
no input formula string can fail with the negative-velocity violation message
— the claimed failing case for negative velocity does not exist. -/
theorem c3_negative_velocity_unreachable :
    velocityConstraint ∈ kineticRules.value_constraints
  ∧ ¬ ∃ s : String, validate_formula fullStore "KineticEnergyValidator" s =
      .ok false velocityViolation :=
  ⟨by decide, fun ⟨s, h⟩ => fullStore_no_velocity_msg s h⟩

/-- C4 (code bug): the source regex `KE=0.5\*...` leaves the dot of `0.5`
unescaped, so it is the any-character metacharacter: `KE=0x5*2*3^2` passes the
Kinetic Energy parser (mass 2, velocity 3) and validates successfully, though
the documented literal shape requires the characters `0.5`. -/
theorem c4_unescaped_dot_accepts :
    parseKinetic "KE=0x5*2*3^2" = some (2, 3)
  ∧ parseKinetic "KE=0.5*2*3^2" = some (2, 3)
  ∧ validate_formula fullStore "KineticEnergyValidator" "KE=0x5*2*3^2" =
      .ok true ("Calculation Successful! Result = 9.00\n" ++
        massConstraint ++ "\n" ++ velocityConstraint) :=
  ⟨by decide, by decide, by decide⟩

/-- C5 (amended): `validate_formula` is insensitive to space characters —
for every store, type and formula, the outcome equals the outcome on the
formula with all `' '` removed; in particular `F = 2 * 3` and `F=2*3` give
identical outcomes.  Amendment: only the space character U+0020 is stripped
(`str.replace(' ', '')`), not all whitespace. -/
theorem c5_space_insensitivity :
    (∀ (vs : Validators) (t s : String),
      validate_formula vs t s = validate_formula vs t (stripSpaces s))
  ∧ validate_formula fullStore "NewtonSecondLawValidator" "F = 2 * 3" =
      validate_formula fullStore "NewtonSecondLawValidator" "F=2*3" := by
  constructor
  · intro vs t s
    unfold validate_formula parse_and_validate_values
    rw [stripSpaces_idem]
  · decide

/-- C5 counterexample: a tab is whitespace but is not stripped by the source,
so `F=2*<tab>3` and its all-whitespace-stripped form `F=2*3` produce
different outcomes (pattern failure versus success). -/
theorem c5_tab_not_stripped :
    validate_formula fullStore "NewtonSecondLawValidator" "F=2*\t3" ≠
      validate_formula fullStore "NewtonSecondLawValidator"
        (stripAllWhitespace "F=2*\t3") :=
  by decide

/-- C6 (confirmed): for Newton's law and Kinetic Energy, a formula that passes
the pattern check and parses with mass ≤ 0 while the mass constraint string is
present always yields `is_valid = false` with the mass-specific message, never
a computed value. -/
theorem c6_mass_nonpositive_fails (vs : Validators) (s : String) :
    (∀ info p m a,
      vs "NewtonSecondLawValidator" = some info →
      info.formula_pattern = some p →
      p.accepts (stripSpaces s) = true →
      parseNewton (stripSpaces s) = some (m, a) →
      m ≤ 0 →
      massConstraint ∈ info.value_constraints →
      validate_formula vs "NewtonSecondLawValidator" s = .ok false massViolation)
  ∧ (∀ info p m v,
      vs "KineticEnergyValidator" = some info →
      info.formula_pattern = some p →
      p.accepts (stripSpaces s) = true →
      parseKinetic (stripSpaces s) = some (m, v) →
      m ≤ 0 →
      massConstraint ∈ info.value_constraints →
      validate_formula vs "KineticEnergyValidator" s = .ok false massViolation) := by
  constructor
  · intro info p m a hvs hp hacc hparse hm hmem
    rw [validate_formula_dispatch s hvs hp hacc, parse_and_validate_values_newton,
      validate_newton_second_law_massfail hparse (valueConstraintsOf_eq hvs ▸ hmem) hm]
  · intro info p m v hvs hp hacc hparse hm hmem
    rw [validate_formula_dispatch s hvs hp hacc, parse_and_validate_values_kinetic,
      validate_kinetic_energy_massfail hparse (valueConstraintsOf_eq hvs ▸ hmem) hm]

/-- C6 witness: mass 0 in both formula types, at concrete inputs. -/
theorem c6_mass_nonpositive_fails_witness :
    validate_formula fullStore "NewtonSecondLawValidator" "F=0*5" = .ok false massViolation
  ∧ validate_formula fullStore "KineticEnergyValidator" "KE=0.5*0*3^2" =
      .ok false massViolation :=
  ⟨(c6_mass_nonpositive_fails fullStore "F=0*5").1 newtonRules newtonFPattern 0 5
      rfl rfl (by decide) (by decide) (by decide) (by decide),
   (c6_mass_nonpositive_fails fullStore "KE=0.5*0*3^2").2 kineticRules kineticFPattern 0 3
      rfl rfl (by decide) (by decide) (by decide) (by decide)⟩

/-- C7 (confirmed): on any loader-producible store, a formula type other than
the four validator identifiers yields exactly
`(false, "Unsupported formula type")`, whatever the formula string. -/
theorem c7_unsupported_type (n k o i : RuleRecord) (t s : String)
    (h1 : t ≠ "NewtonSecondLawValidator") (h2 : t ≠ "KineticEnergyValidator")
    (h3 : t ≠ "OhmsLawValidator") (h4 : t ≠ "IdealGasLawValidator") :
    validate_formula (mkValidators n k o i) t s =
      .ok false "Unsupported formula type" := by
  unfold validate_formula mkValidators
  simp only [if_neg h1, if_neg h2, if_neg h3, if_neg h4]

/-- C7 witness: the unknown type `FooValidator` at a concrete store. -/
theorem c7_unsupported_type_witness :
    validate_formula fullStore "FooValidator" "F=2*3" =
      .ok false "Unsupported formula type" :=
  c7_unsupported_type newtonRules kineticRules ohmsRules idealRules "FooValidator"
    "F=2*3" (by decide) (by decide) (by decide) (by decide)

/-- C8 (confirmed): starting from 0, with +10-capped-at-100 on success and
-5-floored-at-0 on failure, the mastery level stays in [0, 100] after every
sequence of validation requests, on any store. -/
theorem c8_mastery_bounded (vs : Validators) (reqs : List (String × String)) :
    0 ≤ runRequests vs reqs ∧ runRequests vs reqs ≤ 100 :=
  foldl_mastery_bounds vs reqs 0 (by decide) (by decide)

/-- C9 (confirmed): every operand any of the four parsers extracts is
non-negative — the numeral patterns admit no sign — and consequently the
constraint branches that test for a strictly negative operand (velocity,
current, temperature) can never fire, on any store. -/
theorem c9_parsed_operands_nonneg (vs : Validators) (s : String) :
    (∀ m a, parseNewton s = some (m, a) → 0 ≤ m ∧ 0 ≤ a)
  ∧ (∀ m v, parseKinetic s = some (m, v) → 0 ≤ m ∧ 0 ≤ v)
  ∧ (∀ i r, parseOhms s = some (i, r) → 0 ≤ i ∧ 0 ≤ r)
  ∧ (∀ n R T, parseIdeal s = some (n, R, T) → 0 ≤ n ∧ 0 ≤ R ∧ 0 ≤ T)
  ∧ validate_kinetic_energy vs s ≠ .error velocityViolation
  ∧ validate_ohms_law vs s ≠ .error currentViolation
  ∧ validate_ideal_gas_law vs s ≠ .error temperatureViolation :=
  ⟨fun _ _ h => parseNewton_nonneg h,
   fun _ _ h => parseKinetic_nonneg h,
   fun _ _ h => parseOhms_nonneg h,
   fun _ _ _ h => parseIdeal_nonneg h,
   validate_kinetic_energy_ne_velocity vs s,
   validate_ohms_law_ne_current vs s,
   validate_ideal_gas_law_ne_temperature vs s⟩

/-- C9 witness: the Newton parser at `F=2*3`, whose operands are indeed
non-negative. -/
theorem c9_parsed_operands_nonneg_witness : (0 : ℚ) ≤ 2 ∧ (0 : ℚ) ≤ 3 :=
  (c9_parsed_operands_nonneg fullStore "F=2*3").1 2 3 (by decide)

/-- C10 (confirmed): for Newton's law no value constraint applies to the
acceleration: once a formula passes the pattern and parses, and the mass check
passes (or the mass constraint string is absent), validation succeeds whatever
the acceleration, including 0. -/
theorem c10_no_acceleration_constraint (vs : Validators) (s : String)
    (info : RuleRecord) (p : FPattern) (m a : ℚ)
    (hvs : vs "NewtonSecondLawValidator" = some info)
    (hp : info.formula_pattern = some p)
    (hacc : p.accepts (stripSpaces s) = true)
    (hparse : parseNewton (stripSpaces s) = some (m, a))
    (hmass : massConstraint ∈ info.value_constraints → 0 < m) :
    validate_formula vs "NewtonSecondLawValidator" s =
      .ok true (successMessage info (m * a)) :=
  validate_formula_newton_ok s hvs hp hacc hparse hmass

/-- C10 witness: acceleration 0 at the concrete input `F=2*0`; the mass
constraint is active and passes, and validation succeeds with result 0. -/
theorem c10_no_acceleration_constraint_witness :
    validate_formula fullStore "NewtonSecondLawValidator" "F=2*0" =
      .ok true (successMessage newtonRules ((2 : ℚ) * 0)) :=
  c10_no_acceleration_constraint fullStore "F=2*0" newtonRules newtonFPattern 2 0
    rfl rfl (by decide) (by decide) (fun _ => by decide)
